import Mathlib

/-!
Shallow embedding of the Smart-Split load-testing scripts
(`load-testing/locustfile.py` and `load-testing/setup_test_users.py`).

Modelling conventions:
* HTTP/network effects are passed in explicitly: a call that issues one
  request receives the outcome of that request as an `Option` value, where
  `none` stands for "an exception was raised inside the `try` block"
  (transport failure, timeout, unparseable body) and `some r` for a
  completed response `r`.
* Functions that issue requests also return the number of requests they
  issued, so that "no request was made" is a provable statement.
* Machine integers do not occur; HTTP status codes are `Nat`.
-/

namespace SmartSplit

/-- A parsed response of the Supabase token endpoint, as `get_supabase_token`
reads it: the HTTP status, the body's optional `access_token` field
(`data.get("access_token")`), and the body's optional `user.id` field
(`data.get("user", \x7b\x7d).get("id")`). -/
structure TokenResponse where
  status : Nat
  access_token : Option String := none
  user_id : Option String := none
deriving DecidableEq, Repr

/-- The dict built by `get_supabase_token` on a 200 response: keys
`access_token`, `user_id`, `email`; the first two may be `None`. -/
structure AuthData where
  access_token : Option String
  user_id : Option String
  email : String
deriving DecidableEq, Repr

/-- `locustfile.get_supabase_token(email, password)`.
`anonKey` is the module-level `SUPABASE_ANON_KEY`; `net` is the outcome of
the single POST to the password-grant endpoint (`none` = exception raised,
caught by the `except` clause). Returns the result (`None` modelled as
`none`) together with the number of HTTP requests issued. -/
def get_supabase_token (anonKey email password : String)
    (net : Option TokenResponse) : Option AuthData × Nat :=
  if anonKey = "" then (none, 0)
  else
    match net with
    | none => (none, 1)
    | some r =>
      if r.status = 200 then
        (some { access_token := r.access_token, user_id := r.user_id, email := email }, 1)
      else
        (none, 1)

/-- The identifiers of the weighted tasks of the five virtual-user classes
in `locustfile.py`. -/
inductive TaskId where
  | viewLandingPage
  | viewLoginPage
  | viewRegisterPage
  | viewFeedbackPage
  | viewForgotPassword
  | viewDashboard
  | viewGroupsList
  | viewExpensesList
  | viewActivityFeed
  | viewSettings
  | viewFeedbackHistory
  | healthCheck
  | cacheHealth
  | getUserFeedback
  | submitFeedback
  | fetchSitemap
  | fetchRobots
  | fetchManifest
  | loadFavicon
  | loadLogo
deriving DecidableEq, Repr

/-- The five `HttpUser` subclasses of `locustfile.py`. -/
inductive Profile where
  | publicUser
  | authenticatedUser
  | apiUser
  | seoCrawler
  | staticAssetLoader
deriving DecidableEq, Repr

/-- The class each task is declared in. -/
def profileOf : TaskId → Profile
  | .viewLandingPage | .viewLoginPage | .viewRegisterPage
  | .viewFeedbackPage | .viewForgotPassword => .publicUser
  | .viewDashboard | .viewGroupsList | .viewExpensesList
  | .viewActivityFeed | .viewSettings | .viewFeedbackHistory => .authenticatedUser
  | .healthCheck | .cacheHealth | .getUserFeedback | .submitFeedback => .apiUser
  | .fetchSitemap | .fetchRobots | .fetchManifest => .seoCrawler
  | .loadFavicon | .loadLogo => .staticAssetLoader

/-- The request path used by each task (first positional argument of
`self.client.get` / `self.client.post`). -/
def pathOf : TaskId → String
  | .viewLandingPage => "/"
  | .viewLoginPage => "/login"
  | .viewRegisterPage => "/register"
  | .viewFeedbackPage => "/feedback"
  | .viewForgotPassword => "/forgot-password"
  | .viewDashboard => "/dashboard"
  | .viewGroupsList => "/groups"
  | .viewExpensesList => "/expenses"
  | .viewActivityFeed => "/activity"
  | .viewSettings => "/settings/profile"
  | .viewFeedbackHistory => "/feedback/history"
  | .healthCheck => "/api/health"
  | .cacheHealth => "/api/cache/health"
  | .getUserFeedback => "/api/feedback"
  | .submitFeedback => "/api/feedback"
  | .fetchSitemap => "/sitemap.xml"
  | .fetchRobots => "/robots.txt"
  | .fetchManifest => "/manifest.json"
  | .loadFavicon => "/favicon.svg"
  | .loadLogo => "/logo-icon.svg"

/-- HTTP method of each task: `submit_feedback` is the only POST. -/
def methodOf : TaskId → String
  | .submitFeedback => "POST"
  | _ => "GET"

/-- The result recorded for one task invocation through Locust's
`catch_response` context manager: `response.success()` or
`response.failure(msg)`. -/
inductive RecordedResult where
  | success
  | failure (msg : String)
deriving DecidableEq, Repr

/-- The response classification of `AuthenticatedUser._auth_get`
(lines 204-212 of `locustfile.py`), shared by the six page tasks. -/
def auth_get_classify (status : Nat) : RecordedResult :=
  if status = 200 then .success
  else if status = 401 then .failure "Unauthorized - token may be expired"
  else if status = 307 ∨ status = 302 then .failure "Redirected to login"
  else .failure ("Status: " ++ toString status)

/-- The success/failure classification each task applies to the response it
received; `status` is `response.status_code` and `body` is `response.text`
(only `fetch_sitemap` looks at the body). Messages are built exactly as the
Python f-strings build them. -/
def classify (t : TaskId) (status : Nat) (body : String) : RecordedResult :=
  match t with
  | .viewLandingPage | .viewLoginPage | .viewRegisterPage
  | .viewFeedbackPage | .viewForgotPassword =>
    if status = 200 then .success else .failure ("Status code: " ++ toString status)
  | .viewDashboard | .viewGroupsList | .viewExpensesList
  | .viewActivityFeed | .viewSettings | .viewFeedbackHistory =>
    auth_get_classify status
  | .healthCheck =>
    if status = 200 then .success else .failure ("Health check failed: " ++ toString status)
  | .cacheHealth =>
    if status = 200 ∨ status = 503 then .success
    else .failure ("Cache health failed: " ++ toString status)
  | .getUserFeedback =>
    if status = 200 then .success
    else if status = 401 then .failure "Unauthorized"
    else .failure ("Failed: " ++ toString status)
  | .submitFeedback =>
    if status = 200 then .success
    else if status = 429 then .success
    else .failure ("Failed: " ++ toString status)
  | .fetchSitemap =>
    if status = 200 ∧ "urlset".data <:+: body.data then .success
    else .failure ("Invalid sitemap: " ++ toString status)
  | .fetchRobots | .fetchManifest | .loadFavicon | .loadLogo =>
    if status = 200 then .success else .failure ("Status code: " ++ toString status)

/-- An HTTP request as the tasks build it: method, path, and the `headers`
and `cookies` keyword arguments explicitly passed to the client call
(empty list when the keyword is not passed). -/
structure Request where
  method : String
  path : String
  headers : List (String × String)
  cookies : List (String × String)
deriving DecidableEq, Repr

/-- The value of the Next.js auth cookie set by `_auth_get` and
`get_user_feedback`: `json.dumps` of the access token and token type. -/
def authTokenCookieValue (token : String) : String :=
  "\x7b\"access_token\": \"" ++ token ++ "\", \"token_type\": \"bearer\"\x7d"

/-- The `cookies` dict passed by `_auth_get` and `get_user_feedback`. -/
def authCookie (token : String) : List (String × String) :=
  [("sb-cizakzarkdgieclbwljy-auth-token", authTokenCookieValue token)]

/-- Whether the task guards on `self.access_token` and returns early
without it: the six `_auth_get` page tasks and `get_user_feedback`. -/
def needsToken : TaskId → Bool
  | .viewDashboard | .viewGroupsList | .viewExpensesList
  | .viewActivityFeed | .viewSettings | .viewFeedbackHistory
  | .getUserFeedback => true
  | _ => false

/-- The request one task invocation issues, given the session's
`access_token` state: `none` when the token precondition is unmet (the
task returns without a request). Token-guarded tasks attach the auth
cookie; every other task passes no headers and no cookies. -/
def taskRequest (t : TaskId) (token : Option String) : Option Request :=
  if needsToken t then
    token.map fun tok =>
      { method := methodOf t, path := pathOf t, headers := [], cookies := authCookie tok }
  else
    some { method := methodOf t, path := pathOf t, headers := [], cookies := [] }

/-- One task invocation: the list of (request issued, result recorded)
pairs, given the session token state and the response (`status`, `body`)
the single request would receive. The straight-line Python task body
issues at most one request and records exactly one result for it. -/
def run_task (t : TaskId) (token : Option String) (status : Nat) (body : String) :
    List (Request × RecordedResult) :=
  match taskRequest t token with
  | none => []
  | some req => [(req, classify t status body)]

/-- One account of the fixed list in `setup_test_users.py`. -/
structure SetupAccount where
  email : String
  password : String
  name : String
deriving DecidableEq, Repr

/-- The hard-coded `TEST_USERS` list of `setup_test_users.py`. -/
def TEST_USERS : List SetupAccount :=
  [ { email := "loadtest1@smartsplit.test", password := "LoadTest123!", name := "Load Test User 1" },
    { email := "loadtest2@smartsplit.test", password := "LoadTest123!", name := "Load Test User 2" },
    { email := "loadtest3@smartsplit.test", password := "LoadTest123!", name := "Load Test User 3" } ]

/-- `setup_test_users.create_user(email, password, name)`. `serviceKey` is
the module-level `SUPABASE_SERVICE_KEY`; `net` is the outcome of the single
admin-API POST (`none` = exception, caught). Returns the Bool result and
the number of requests issued. -/
def create_user (serviceKey : String) (net : Option Nat) : Bool × Nat :=
  if serviceKey = "" then (false, 0)
  else
    match net with
    | none => (false, 1)
    | some status =>
      (if status = 200 ∨ status = 201 then true
       else if status = 422 then true
       else false, 1)

/-- The `success_count` accumulation loop of `setup_test_users.main`:
starts at 0 and adds 1 for each account whose `create_user` call returned
`True`. `net` maps each account's email to its admin-API response. -/
def main_success_count (serviceKey : String) (net : String → Option Nat) : Nat :=
  TEST_USERS.foldl
    (fun acc u => if (create_user serviceKey (net u.email)).1 then acc + 1 else acc) 0

/-- `setup_test_users.main`: returns the printed final tally
`(success_count, len(TEST_USERS))` as `some` pair (or `none` when the
service key is empty and `main` returns before the loop), together with
the total number of admin-API requests issued. -/
def setup_main (serviceKey : String) (net : String → Option Nat) :
    Option (Nat × Nat) × Nat :=
  if serviceKey = "" then (none, 0)
  else
    (some (main_success_count serviceKey net, TEST_USERS.length),
     (TEST_USERS.map fun u => (create_user serviceKey (net u.email)).2).sum)

/-- Spec-side predicate (from the spec's words, for comparison with
`classify`): the statuses each task records as success — 200 everywhere,
plus 503 for cache health, plus 429 for feedback submission, and for the
sitemap task 200 together with `urlset` occurring in the body. -/
def spec_successStatus (t : TaskId) (s : Nat) (b : String) : Prop :=
  match t with
  | .cacheHealth => s = 200 ∨ s = 503
  | .submitFeedback => s = 200 ∨ s = 429
  | .fetchSitemap => s = 200 ∧ "urlset".data <:+: b.data
  | _ => s = 200

/-- Spec-side predicate: the failure cases whose message is a fixed text
without the numeric status code — the authenticated-GET helper's 401 and
302/307 branches, and the feedback-retrieval task's 401 branch. -/
def spec_fixedMessageCase (t : TaskId) (s : Nat) : Prop :=
  (profileOf t = .authenticatedUser ∧ (s = 401 ∨ s = 302 ∨ s = 307)) ∨
  (t = .getUserFeedback ∧ s = 401)

/-- The decimal rendering of status `s` occurs in message `msg`. -/
def mentionsStatus (s : Nat) (msg : String) : Prop :=
  (toString s).data <:+: msg.data

/-- Spec-side predicate (from the spec's words): the request carries the
session token, either as a bearer Authorization header or inside an auth
cookie value. -/
def spec_carriesToken (tok : String) (r : Request) : Prop :=
  ("Authorization", "Bearer " ++ tok) ∈ r.headers ∨
  ∃ c ∈ r.cookies, tok.data <:+: c.2.data

/-! ### Helper lemmas -/

/-- A message of the form `pre ++ toString s` mentions the status `s`. -/
lemma mentionsStatus_append (pre : String) (s : Nat) :
    mentionsStatus s (pre ++ toString s) := by
  unfold mentionsStatus
  rw [String.data_append]
  exact List.IsSuffix.isInfix (List.suffix_append _ _)

/-- The token occurs in the auth-cookie value built from it. -/
lemma token_in_cookieValue (tok : String) :
    tok.data <:+: (authTokenCookieValue tok).data := by
  unfold authTokenCookieValue
  refine ⟨"\x7b\"access_token\": \"".data, "\", \"token_type\": \"bearer\"\x7d".data, ?_⟩
  simp [String.data_append]

/-- Counting with a fold that conditionally adds one equals `countP`. -/
lemma foldl_count {α : Type} (p : α → Bool) (l : List α) (n : Nat) :
    l.foldl (fun acc u => if p u then acc + 1 else acc) n = n + l.countP p := by
  induction l generalizing n with
  | nil => simp
  | cons a l ih =>
    rw [List.foldl_cons, List.countP_cons, ih]
    rcases h : p a <;> simp [h] <;> omega

/-- The common task shape `if status == 200: success else failure (pre ++ code)`:
success exactly on 200, and every failure message mentions the status. -/
lemma classify_simple_case (s : Nat) (pre : String) :
    ((if s = 200 then RecordedResult.success
      else RecordedResult.failure (pre ++ toString s)) = RecordedResult.success ↔ s = 200) ∧
    ∀ m, (if s = 200 then RecordedResult.success
      else RecordedResult.failure (pre ++ toString s)) = RecordedResult.failure m →
      mentionsStatus s m := by
  constructor
  · split <;> simp_all
  · intro m hm
    split at hm
    · simp at hm
    · injection hm with h
      exact h ▸ mentionsStatus_append pre s

/-- Classification behaviour of `_auth_get`: success exactly on 200, and
every failure message either is one of the fixed 401/302/307 texts or
mentions the status. -/
lemma auth_get_spec (s : Nat) :
    (auth_get_classify s = .success ↔ s = 200) ∧
    ∀ m, auth_get_classify s = .failure m →
      (s = 401 ∨ s = 302 ∨ s = 307) ∨ mentionsStatus s m := by
  unfold auth_get_classify
  constructor
  · split_ifs with h1 h2 h3 <;> simp_all
  · intro m hm
    split_ifs at hm with h1 h2 h3
    · exact Or.inl (Or.inl h2)
    · rcases h3 with h | h
      · exact Or.inl (Or.inr (Or.inr h))
      · exact Or.inl (Or.inr (Or.inl h))
    · injection hm with h
      exact Or.inr (h ▸ mentionsStatus_append "Status: " s)

/-! ### Claims -/

/-- C9: when the configured anonymous key is empty, `get_supabase_token`
returns the empty result immediately for every email/password input,
without issuing any HTTP request. -/
theorem C9_empty_anon_key (email password : String) (net : Option TokenResponse) :
    get_supabase_token "" email password net = (none, 0) := rfl

/-- C10: when the service key is empty, `setup_main` returns before
iterating the account list: no admin user-creation call is issued and no
final tally is produced. -/
theorem C10_empty_service_key (net : String → Option Nat) :
    setup_main "" net = (none, 0) := rfl

/-- C6: neither `get_supabase_token` nor `create_user` propagates an
exception: the exceptional outcome of the single request (`net = none`,
i.e. the `except` clause ran) is mapped to the empty result `none` /
failure result `false`, and both functions are total. -/
theorem C6_exceptions_contained (anonKey email password serviceKey : String) :
    (get_supabase_token anonKey email password none).1 = none ∧
    (create_user serviceKey none).1 = false := by
  constructor
  · unfold get_supabase_token; split <;> rfl
  · unfold create_user; split <;> rfl

/-- C8: on an HTTP 200 response, `get_supabase_token` returns the dict
with keys `access_token`, `user_id` and `email`, the email equal to the
input email; missing `access_token` or `user.id` in the body yields `none`
fields rather than an empty result. -/
theorem C8_success_dict_shape (anonKey email password : String) (r : TokenResponse)
    (hk : anonKey ≠ "") (hs : r.status = 200) :
    (get_supabase_token anonKey email password (some r)).1 =
      some { access_token := r.access_token, user_id := r.user_id, email := email } := by
  unfold get_supabase_token
  rw [if_neg hk]
  simp [hs]

/-- Witness for C8 at a concrete 200 response whose body lacks both the
access token and the user id. -/
theorem C8_witness :
    (get_supabase_token "anon" "e@x" "pw"
      (some { status := 200, access_token := none, user_id := none })).1 =
      some { access_token := none, user_id := none, email := "e@x" } :=
  C8_success_dict_shape "anon" "e@x" "pw" _ (by decide) rfl

/-- C1: `get_supabase_token` returns a non-empty result exactly when a
request was issued (anon key configured), the endpoint responded (no
transport exception), and the status was 200; any other status and any
exception yields the empty result. -/
theorem C1_token_only_on_200 (anonKey email password : String)
    (net : Option TokenResponse) :
    ((get_supabase_token anonKey email password net).1).isSome = true ↔
      anonKey ≠ "" ∧ ∃ r, net = some r ∧ r.status = 200 := by
  unfold get_supabase_token
  by_cases hk : anonKey = ""
  · simp [hk]
  · rw [if_neg hk]
    cases net with
    | none => simp
    | some r =>
      by_cases hs : r.status = 200
      · simp [hs, hk]
      · simp [hs, hk]

/-- C3: `create_user` classifies 200, 201 and 422 as success and every
other status as failure, and the tally printed by `main` equals the number
of accounts (out of the fixed list of 3) whose creation call was
classified as success. -/
theorem C3_create_and_tally (serviceKey : String) (net : String → Option Nat)
    (h : serviceKey ≠ "") :
    (setup_main serviceKey net).1 =
      some (TEST_USERS.countP (fun u => (create_user serviceKey (net u.email)).1), 3) ∧
    ∀ s : Nat, (create_user serviceKey (some s)).1 = true ↔ s = 200 ∨ s = 201 ∨ s = 422 := by
  constructor
  · unfold setup_main main_success_count
    rw [if_neg h, foldl_count, Nat.zero_add]
    rfl
  · intro s
    unfold create_user
    rw [if_neg h]
    show (if s = 200 ∨ s = 201 then true else if s = 422 then true else false, 1).1 = true ↔
      s = 200 ∨ s = 201 ∨ s = 422
    split_ifs with h1 h2 <;> simp_all <;> tauto

/-- Witness for C3: with a non-empty service key and every admin call
answering 200, the printed tally is 3 out of 3. -/
theorem C3_witness : (setup_main "key" (fun _ => some 200)).1 = some (3, 3) := by
  have h := (C3_create_and_tally "key" (fun _ => some 200) (by decide)).1
  rw [h]
  rfl

/-- C4: every task of the unauthenticated profiles (`PublicUser`,
`SEOCrawler`, `StaticAssetLoader`) issues its request with no explicit
headers (hence no Authorization header) and no cookies (hence no auth
cookie), for every session token state. -/
theorem C4_unauthenticated_no_credentials (t : TaskId) (tok : Option String) (r : Request)
    (hp : profileOf t = .publicUser ∨ profileOf t = .seoCrawler ∨
      profileOf t = .staticAssetLoader)
    (hr : taskRequest t tok = some r) :
    r.headers = [] ∧ r.cookies = [] := by
  cases t <;> simp_all [profileOf, taskRequest, needsToken] <;> (cases hr; exact ⟨rfl, rfl⟩)

/-- Witness for C4 at the landing-page task of `PublicUser`. -/
theorem C4_witness :
    ({ method := "GET", path := "/", headers := [], cookies := [] } : Request).headers = [] ∧
    ({ method := "GET", path := "/", headers := [], cookies := [] } : Request).cookies = [] :=
  C4_unauthenticated_no_credentials .viewLandingPage none _ (Or.inl rfl) rfl

/-- C7: every task invocation issues at most one HTTP request and records
at most one result, and a token-guarded task invoked without an access
token issues no request and records no result. -/
theorem C7_single_request (t : TaskId) (tok : Option String) (s : Nat) (b : String) :
    (run_task t tok s b).length ≤ 1 ∧
    (needsToken t = true → run_task t none s b = []) := by
  constructor
  · unfold run_task
    cases taskRequest t tok <;> simp
  · intro hn
    unfold run_task taskRequest
    rw [if_pos hn]
    rfl

/-- Witness for C7: the dashboard task without a token does nothing. -/
theorem C7_witness : run_task .viewDashboard none 200 "" = [] :=
  (C7_single_request .viewDashboard none 200 "").2 rfl

/-- C5 counterexample: an `APIUser` holding the token `"tok"` runs
`submit_feedback`, which issues its POST with no headers and no cookies —
the request carries neither a bearer Authorization header nor an auth
cookie, contrary to the claim that every request of a token-holding user
carries the token. -/
theorem C5_counterexample :
    run_task .submitFeedback (some "tok") 200 "" =
      [({ method := "POST", path := "/api/feedback", headers := [], cookies := [] },
        .success)] ∧
    ¬ spec_carriesToken "tok"
        { method := "POST", path := "/api/feedback", headers := [], cookies := [] } := by
  constructor
  · rfl
  · simp [spec_carriesToken]

/-- C5 (amended): every request issued by a token-guarded task — the six
`_auth_get` page tasks and the feedback-retrieval API task — carries the
session token inside the auth cookie; the feedback-submission task (and
the other unguarded tasks) attach no credentials. -/
theorem C5_amended_token_cookie (t : TaskId) (tok : String) (s : Nat) (b : String)
    (p : Request × RecordedResult) (ht : needsToken t = true)
    (hp : p ∈ run_task t (some tok) s b) :
    p.1.cookies = authCookie tok ∧ spec_carriesToken tok p.1 := by
  have hreq : taskRequest t (some tok) =
      some { method := methodOf t, path := pathOf t, headers := [],
             cookies := authCookie tok } := by
    unfold taskRequest
    rw [if_pos ht]
    rfl
  unfold run_task at hp
  rw [hreq] at hp
  simp only [List.mem_singleton] at hp
  subst hp
  refine ⟨rfl, Or.inr ⟨("sb-cizakzarkdgieclbwljy-auth-token", authTokenCookieValue tok),
    ?_, ?_⟩⟩
  · simp [authCookie]
  · exact token_in_cookieValue tok

/-- Witness for C5 (amended) at the dashboard task with token `"tok"`. -/
theorem C5_witness :
    ({ method := "GET", path := "/dashboard", headers := [],
        cookies := authCookie "tok" } : Request).cookies = authCookie "tok" ∧
    spec_carriesToken "tok"
      { method := "GET", path := "/dashboard", headers := [], cookies := authCookie "tok" } :=
  C5_amended_token_cookie .viewDashboard "tok" 200 ""
    ({ method := "GET", path := "/dashboard", headers := [], cookies := authCookie "tok" },
      .success) rfl (by simp [run_task, taskRequest, needsToken, methodOf, pathOf,
        classify, auth_get_classify])

/-- C2 counterexample: two deviations from the claim at concrete inputs.
A 401 on a `_auth_get` task (here the dashboard) is recorded as failure
with the fixed message `Unauthorized - token may be expired`, which does
not contain the status code 401; and a 200 response to the sitemap task
whose body lacks `urlset` is recorded as a failure, not a success. -/
theorem C2_counterexample :
    classify .viewDashboard 401 "" = .failure "Unauthorized - token may be expired" ∧
    ¬ mentionsStatus 401 "Unauthorized - token may be expired" ∧
    classify .fetchSitemap 200 "" = .failure ("Invalid sitemap: " ++ toString 200) := by
  refine ⟨rfl, ?_, ?_⟩
  · unfold mentionsStatus
    decide
  · decide

/-- C2 (amended): for every task and response status, a 200 is recorded as
success and any other status as failure with the status code in the
message, except that: cache health also records 503 as success; feedback
submission also records 429 as success; the sitemap task records 200 as
success only when the body contains `urlset` (and otherwise records a
failure whose message still carries the code); and the fixed failure texts
of the `_auth_get` helper (statuses 401, 302, 307) and of the
feedback-retrieval task (status 401) do not carry the code. -/
theorem C2_amended_classification (t : TaskId) (s : Nat) (b : String) :
    (classify t s b = .success ↔ spec_successStatus t s b) ∧
    (∀ m, classify t s b = .failure m → spec_fixedMessageCase t s ∨ mentionsStatus s m) := by
  cases t with
  | viewLandingPage =>
    exact ⟨(classify_simple_case s "Status code: ").1,
      fun m hm => Or.inr ((classify_simple_case s "Status code: ").2 m hm)⟩
  | viewLoginPage =>
    exact ⟨(classify_simple_case s "Status code: ").1,
      fun m hm => Or.inr ((classify_simple_case s "Status code: ").2 m hm)⟩
  | viewRegisterPage =>
    exact ⟨(classify_simple_case s "Status code: ").1,
      fun m hm => Or.inr ((classify_simple_case s "Status code: ").2 m hm)⟩
  | viewFeedbackPage =>
    exact ⟨(classify_simple_case s "Status code: ").1,
      fun m hm => Or.inr ((classify_simple_case s "Status code: ").2 m hm)⟩
  | viewForgotPassword =>
    exact ⟨(classify_simple_case s "Status code: ").1,
      fun m hm => Or.inr ((classify_simple_case s "Status code: ").2 m hm)⟩
  | viewDashboard =>
    refine ⟨(auth_get_spec s).1, fun m hm => ?_⟩
    rcases (auth_get_spec s).2 m hm with h | h
    · exact Or.inl (Or.inl ⟨rfl, h⟩)
    · exact Or.inr h
  | viewGroupsList =>
    refine ⟨(auth_get_spec s).1, fun m hm => ?_⟩
    rcases (auth_get_spec s).2 m hm with h | h
    · exact Or.inl (Or.inl ⟨rfl, h⟩)
    · exact Or.inr h
  | viewExpensesList =>
    refine ⟨(auth_get_spec s).1, fun m hm => ?_⟩
    rcases (auth_get_spec s).2 m hm with h | h
    · exact Or.inl (Or.inl ⟨rfl, h⟩)
    · exact Or.inr h
  | viewActivityFeed =>
    refine ⟨(auth_get_spec s).1, fun m hm => ?_⟩
    rcases (auth_get_spec s).2 m hm with h | h
    · exact Or.inl (Or.inl ⟨rfl, h⟩)
    · exact Or.inr h
  | viewSettings =>
    refine ⟨(auth_get_spec s).1, fun m hm => ?_⟩
    rcases (auth_get_spec s).2 m hm with h | h
    · exact Or.inl (Or.inl ⟨rfl, h⟩)
    · exact Or.inr h
  | viewFeedbackHistory =>
    refine ⟨(auth_get_spec s).1, fun m hm => ?_⟩
    rcases (auth_get_spec s).2 m hm with h | h
    · exact Or.inl (Or.inl ⟨rfl, h⟩)
    · exact Or.inr h
  | healthCheck =>
    exact ⟨(classify_simple_case s "Health check failed: ").1,
      fun m hm => Or.inr ((classify_simple_case s "Health check failed: ").2 m hm)⟩
  | cacheHealth =>
    constructor
    · show (if s = 200 ∨ s = 503 then RecordedResult.success
        else RecordedResult.failure ("Cache health failed: " ++ toString s)) =
          RecordedResult.success ↔ (s = 200 ∨ s = 503)
      split <;> simp_all
    · intro m hm
      simp only [classify] at hm
      split at hm
      · simp at hm
      · injection hm with h
        exact Or.inr (h ▸ mentionsStatus_append "Cache health failed: " s)
  | getUserFeedback =>
    constructor
    · show (if s = 200 then RecordedResult.success
        else if s = 401 then RecordedResult.failure "Unauthorized"
        else RecordedResult.failure ("Failed: " ++ toString s)) =
          RecordedResult.success ↔ s = 200
      split_ifs with h1 h2 <;> simp_all
    · intro m hm
      simp only [classify] at hm
      split_ifs at hm with h1 h2
      · exact Or.inl (Or.inr ⟨rfl, h2⟩)
      · injection hm with h
        exact Or.inr (h ▸ mentionsStatus_append "Failed: " s)
  | submitFeedback =>
    constructor
    · show (if s = 200 then RecordedResult.success
        else if s = 429 then RecordedResult.success
        else RecordedResult.failure ("Failed: " ++ toString s)) =
          RecordedResult.success ↔ (s = 200 ∨ s = 429)
      split_ifs with h1 h2 <;> simp_all
    · intro m hm
      simp only [classify] at hm
      split_ifs at hm with h1 h2
      injection hm with h
      exact Or.inr (h ▸ mentionsStatus_append "Failed: " s)
  | fetchSitemap =>
    constructor
    · show (if s = 200 ∧ "urlset".data <:+: b.data then RecordedResult.success
        else RecordedResult.failure ("Invalid sitemap: " ++ toString s)) =
          RecordedResult.success ↔ (s = 200 ∧ "urlset".data <:+: b.data)
      split <;> simp_all
    · intro m hm
      simp only [classify] at hm
      split at hm
      · simp at hm
      · injection hm with h
        exact Or.inr (h ▸ mentionsStatus_append "Invalid sitemap: " s)
  | fetchRobots =>
    exact ⟨(classify_simple_case s "Status code: ").1,
      fun m hm => Or.inr ((classify_simple_case s "Status code: ").2 m hm)⟩
  | fetchManifest =>
    exact ⟨(classify_simple_case s "Status code: ").1,
      fun m hm => Or.inr ((classify_simple_case s "Status code: ").2 m hm)⟩
  | loadFavicon =>
    exact ⟨(classify_simple_case s "Status code: ").1,
      fun m hm => Or.inr ((classify_simple_case s "Status code: ").2 m hm)⟩
  | loadLogo =>
    exact ⟨(classify_simple_case s "Status code: ").1,
      fun m hm => Or.inr ((classify_simple_case s "Status code: ").2 m hm)⟩

/-- Witness for C2 (amended) at the landing-page task and status 404. -/
theorem C2_witness :
    spec_fixedMessageCase .viewLandingPage 404 ∨
      mentionsStatus 404 ("Status code: " ++ toString 404) :=
  (C2_amended_classification .viewLandingPage 404 "").2
    ("Status code: " ++ toString 404) rfl

end SmartSplit
